import Mathlib

/-!
Shallow embedding of the voice-journal recording pipeline of
`bolt-hackathon-2025`: the `ApiService` layer (`src/services/supabaseClient.ts`
and `src/services/api.ts`), the `Recorder` save flow
(`src/components/Recorder.tsx`), and the `AudioLog` playback component.
JavaScript strings are Lean `String`s, JavaScript numbers that may be
`NaN`/`Infinity` are the inductive `JSNum`, nullable values are `Option`,
and each asynchronous external call (storage, database, transcription
service) is an explicit input describing its outcome.
-/

/-- Numbers as the browser media APIs deliver them: possibly `NaN` or an
infinity, otherwise an exact rational. -/
inductive JSNum where
  | nan : JSNum
  | posInf : JSNum
  | negInf : JSNum
  | num : ℚ → JSNum
deriving DecidableEq

namespace JSNum

/-- Embeds `isFinite`. -/
def isFiniteJS : JSNum → Bool
  | nan => false
  | posInf => false
  | negInf => false
  | num _ => true

/-- Embeds the comparison `x > 0` (false on `NaN`). -/
def gtZero : JSNum → Bool
  | nan => false
  | posInf => true
  | negInf => false
  | num q => decide (0 < q)

/-- Truthiness of a number: everything except `0` and `NaN`. -/
def truthy : JSNum → Bool
  | nan => false
  | num q => decide (q ≠ 0)
  | _ => true

end JSNum

/-- Truthiness of a string: every string except the empty one. -/
def jsTruthyStr (s : String) : Bool := s ≠ ""

/-- Embeds `a || b` on a possibly-`undefined` string `a`. -/
def jsOrStr (a : Option String) (b : String) : String :=
  match a with
  | some s => if jsTruthyStr s then s else b
  | none => b

/-- Embeds `Math.round(size / 1000)` for a natural byte count `size`:
`Math.round` is floor of the argument plus one half. -/
def jsRoundDiv1000 (size : ℕ) : ℕ := (size + 500) / 1000

/-- ASCII lower-casing of one character, as `toLowerCase` acts on the
ASCII-range locale codes this code feeds it. -/
def asciiLower (c : Char) : Char :=
  if 65 ≤ c.toNat ∧ c.toNat ≤ 90 then Char.ofNat (c.toNat + 32) else c

/-- Embeds `s.toLowerCase()` (character-wise ASCII lower-casing). -/
def jsToLower (s : String) : String := ⟨s.data.map asciiLower⟩

/-- Embeds `s.substring(0, n)`. -/
def jsSubstringTo (s : String) (n : ℕ) : String := ⟨s.data.take n⟩

/-- List-level test that `s` begins with `pre`. -/
def beginsList (pre s : List Char) : Bool :=
  match pre, s with
  | [], _ => true
  | _ :: _, [] => false
  | p :: ps, c :: cs => p = c && beginsList ps cs

/-- Embeds `s.startsWith(pre)`. -/
def jsStartsWith (s pre : String) : Bool := beginsList pre.data s.data

/-- Whitespace as `trim` strips it. -/
def isJsWhitespace (c : Char) : Bool :=
  c = ' ' || c = '\t' || c = '\n' || c = '\r'

/-- Embeds `s.trim()`. -/
def jsTrim (s : String) : String :=
  ⟨((s.data.dropWhile isJsWhitespace).reverse.dropWhile isJsWhitespace).reverse⟩

/-- Test that `needle` occurs contiguously inside `hay`. -/
def hasSubList (needle : List Char) : List Char → Bool
  | [] => needle.isEmpty
  | c :: cs => beginsList needle (c :: cs) || hasSubList needle cs

/-- Embeds `hay.includes(needle)`: substring containment. -/
def strContains (hay needle : String) : Bool := hasSubList needle.data hay.data

/-- Splitting a character list on a separator character; the result is
always non-empty, mirroring JavaScript `split`. -/
def splitOnChar (sep : Char) : List Char → List (List Char)
  | [] => [[]]
  | c :: cs =>
      let rest := splitOnChar sep cs
      if c = sep then [] :: rest
      else
        match rest with
        | r :: rs => (c :: r) :: rs
        | [] => [[c]]

/-- Association-list lookup embedding property access `obj[key]` on a
JavaScript object literal used as a string-to-string map. -/
def lookupStr : List (String × String) → String → Option String
  | [], _ => none
  | (k, v) :: rest, key => if key = k then some v else lookupStr rest key

/-- Membership of `some v` in `lookupStr` comes from membership in the list. -/
theorem lookupStr_mem {xs : List (String × String)} {k v : String}
    (h : lookupStr xs k = some v) : (k, v) ∈ xs := by
  induction xs with
  | nil => simp [lookupStr] at h
  | cons hd tl ih =>
    obtain ⟨a, b⟩ := hd
    by_cases hk : k = a
    · subst hk
      simp [lookupStr] at h
      simp [h]
    · simp [lookupStr, hk] at h
      exact List.mem_cons_of_mem _ (ih h)

namespace ApiService

/-- Embeds `ApiService.getSupportedLanguages` as the list of
(code, name) pairs it returns. -/
def getSupportedLanguages : List (String × String) :=
  [("eng", "English"), ("spa", "Spanish"), ("fra", "French"),
   ("deu", "German"), ("ita", "Italian"), ("por", "Portuguese"),
   ("rus", "Russian"), ("jpn", "Japanese"), ("kor", "Korean"),
   ("cmn", "Chinese (Mandarin)"), ("ara", "Arabic"), ("hin", "Hindi"),
   ("nld", "Dutch"), ("pol", "Polish"), ("swe", "Swedish"),
   ("dan", "Danish"), ("nor", "Norwegian"), ("fin", "Finnish"),
   ("tur", "Turkish"), ("ces", "Czech"), ("hun", "Hungarian"),
   ("ron", "Romanian"), ("bul", "Bulgarian"), ("hrv", "Croatian"),
   ("slk", "Slovak"), ("slv", "Slovenian")]

/-- Codes of the supported languages. -/
def supportedCodes : List String := getSupportedLanguages.map Prod.fst

/-- Embeds the static `languageMap` object in `ApiService.detectUserLanguage`,
mapping 2-letter browser codes to 3-letter ElevenLabs codes. -/
def languageMap : List (String × String) :=
  [("en", "eng"), ("es", "spa"), ("fr", "fra"), ("de", "deu"),
   ("it", "ita"), ("pt", "por"), ("ru", "rus"), ("ja", "jpn"),
   ("ko", "kor"), ("zh", "cmn"), ("ar", "ara"), ("hi", "hin"),
   ("nl", "nld"), ("pl", "pol"), ("sv", "swe"), ("da", "dan"),
   ("no", "nor"), ("fi", "fin"), ("tr", "tur"), ("cs", "ces"),
   ("hu", "hun"), ("ro", "ron"), ("bg", "bul"), ("hr", "hrv"),
   ("sk", "slk"), ("sl", "slv")]

/-- Embeds the locale expression
`navigator.language || navigator.languages?.[0] || "en-US"`:
`language` is `navigator.language` (possibly absent or empty) and
`languagesHead` is `navigator.languages?.[0]` (absent when the list is
missing or empty). -/
def browserLocale (language : Option String) (languagesHead : Option String) : String :=
  jsOrStr language (jsOrStr languagesHead "en-US")

/-- Embeds `ApiService.detectUserLanguage`: take the locale's first two
characters, lower-case them, look them up in `languageMap`, and default
to `"eng"`. -/
def detectUserLanguage (language : Option String) (languagesHead : Option String) : String :=
  let locale := browserLocale language languagesHead
  let languageCode := jsToLower (jsSubstringTo locale 2)
  jsOrStr (lookupStr languageMap languageCode) "eng"

/-- Embeds the expression `languageCode || ApiService.detectUserLanguage()`
inside `ApiService.generateTranscription`, which resolves the language
actually sent to the transcription service. -/
def resolvedLanguage (languageCode : Option String)
    (language : Option String) (languagesHead : Option String) : String :=
  match languageCode with
  | some c => if jsTruthyStr c then c else detectUserLanguage language languagesHead
  | none => detectUserLanguage language languagesHead

end ApiService

/-- Value thrown by a failing JavaScript call: an `Error` object carrying a
message, or any other value. -/
inductive JSError where
  | err : String → JSError
  | other : JSError
deriving DecidableEq

/-- Embeds `error instanceof Error ? error.message : "Unknown error"`. -/
def JSError.messageOf : JSError → String
  | .err m => m
  | .other => "Unknown error"

/-- Outcome of the remote ElevenLabs `speechToText.convert` call: either the
returned `response.text`, or a thrown value. -/
def RemoteTranscription : Type := Except JSError String

/-- Audio blob: only its byte size matters to the embedded pipeline. -/
structure Blob where
  size : ℕ
deriving DecidableEq

namespace ApiService

/-- Embeds the constant `ENABLE_ELEVENLABS` from `src/services/api.ts`. -/
def ENABLE_ELEVENLABS : Bool := true

/-- Placeholder transcript template shared by the missing-key and
malformed-key branches of `generateTranscription`. -/
def placeholderTranscript (ts : String) (blob : Blob) : String :=
  "Transcription generated on " ++ ts ++ " - Duration: " ++
    toString (jsRoundDiv1000 blob.size) ++ "KB"

/-- Placeholder transcript of the disabled-integration branch. -/
def disabledTranscript (ts : String) (blob : Blob) : String :=
  "Placeholder transcription generated on " ++ ts ++ " - Duration: " ++
    toString (jsRoundDiv1000 blob.size) ++ "KB"

/-- Fallback transcript built in the `catch` block of
`generateTranscription`, embedding the error message. -/
def failedTranscript (ts : String) (e : JSError) : String :=
  "Transcription failed on " ++ ts ++ " - please try again later. Error: " ++
    e.messageOf

/-- Embeds `ApiService.generateTranscription`. Inputs that the TypeScript
function reads from its environment are explicit: `enable` is
`ENABLE_ELEVENLABS`, `apiKey` is `import.meta.env.VITE_ELEVENLABS_API_KEY`
(absent when `undefined`), `ts` is `new Date().toLocaleString()`,
`navLanguage`/`navLanguagesHead` the browser locale inputs, and `remote`
gives the outcome of the ElevenLabs call as a function of the
`languageCode` passed to it. The function is total: every `throw` in the
source is caught by its own `catch`, which returns `failedTranscript`. -/
def generateTranscription (enable : Bool) (apiKey : Option String)
    (ts : String) (blob : Blob) (languageCode : Option String)
    (navLanguage navLanguagesHead : Option String)
    (remote : String → RemoteTranscription) : String :=
  if !enable then
    disabledTranscript ts blob
  else if !(jsTruthyStr (jsOrStr apiKey "")) then
    placeholderTranscript ts blob
  else if !(jsStartsWith (jsOrStr apiKey "") "sk_") then
    placeholderTranscript ts blob
  else
    let detectedLanguageCode := resolvedLanguage languageCode navLanguage navLanguagesHead
    match remote detectedLanguageCode with
    | .ok text =>
        if jsTruthyStr text && decide (0 < (jsTrim text).length) then text
        else failedTranscript ts (JSError.err "No transcription text returned from API")
    | .error e => failedTranscript ts e

/-- Embeds the user-scoped file path `${userId}/${fileName}` built in
`ApiService.uploadAudio`. -/
def uploadFilePath (userId fileName : String) : String :=
  userId ++ "/" ++ fileName

/-- Embeds `ApiService.uploadAudio`: on a storage error it returns `null`
(the `catch` branch); on success the storage layer echoes back the path it
was given, which is what `data.path` holds. -/
def uploadAudio (fileName userId : String) (storageError : Option JSError) :
    Option String :=
  match storageError with
  | some _ => none
  | none => some (uploadFilePath userId fileName)

end ApiService

/-- Row of the `entries` table (`Database.public.Tables.entries.Row`):
nullable columns are `Option`. `duration` is a JSON number, hence an exact
rational, never `NaN` or infinite. -/
structure EntryRow where
  id : String
  user_id : String
  title : String
  original_audio_url : Option String
  processed_audio_url : Option String
  transcription : Option String
  duration : Option ℚ
  created_at : String
  updated_at : String
deriving DecidableEq

namespace ApiService

/-- Embeds the update payload `{ transcription, updated_at: new Date().toISOString() }`
that `ApiService.updateEntryTranscription` sends: applied to a row, it sets
exactly those two columns. -/
def applyTranscriptionUpdate (row : EntryRow) (transcription : String)
    (now : String) : EntryRow :=
  { row with transcription := some transcription, updated_at := now }

/-- Embeds `ApiService.updateEntryTranscription` acting on the `entries`
table: the payload is applied to each row whose `id` equals `entryId`. -/
def updateEntryTranscription (db : List EntryRow) (entryId transcription now : String) :
    List EntryRow :=
  db.map (fun r => if r.id = entryId then applyTranscriptionUpdate r transcription now else r)

/-- Fields of an entry that `ApiService.deleteEntry` selects before deleting:
`original_audio_url, processed_audio_url, user_id`. -/
structure EntryRefs where
  original_audio_url : Option String
  processed_audio_url : Option String
  user_id : String
deriving DecidableEq

/-- Embeds `url.split("/").pop()`: the last slash-separated segment. -/
def lastSegment (url : String) : String :=
  ⟨(splitOnChar '/' url.data).getLastD []⟩

/-- Embeds the construction of `filesToDelete` in `ApiService.deleteEntry`:
the original path is pushed when the original reference and its last
segment are truthy; the processed path is pushed when the processed
reference is truthy, differs from the original reference, and its last
segment is truthy. -/
def filesToDelete (e : EntryRefs) : List String :=
  (match e.original_audio_url with
   | some u =>
       if jsTruthyStr u && jsTruthyStr (lastSegment u) then
         [e.user_id ++ "/" ++ lastSegment u]
       else []
   | none => []) ++
  (match e.processed_audio_url with
   | some p =>
       if jsTruthyStr p && decide (some p ≠ e.original_audio_url)
           && jsTruthyStr (lastSegment p) then
         [e.user_id ++ "/" ++ lastSegment p]
       else []
   | none => [])

/-- Outcome of `ApiService.deleteEntry`: which storage paths were passed to
`storage.remove`, whether the row delete was issued, and the returned
boolean. -/
structure DeleteOutcome where
  removedPaths : List String
  storageRemoveCalled : Bool
  rowDeleteCalled : Bool
  success : Bool
deriving DecidableEq

/-- Embeds `ApiService.deleteEntry`. `fetchResult` is the outcome of the
initial row fetch (`throw fetchError` lands in the `catch`, returning
`false`), `storageError` the outcome of `storage.remove` (only warned
about), `rowDeleteError` the outcome of the row delete; the returned
boolean is `!deleteError`. -/
def deleteEntry (fetchResult : Except JSError EntryRefs)
    (storageError : Option JSError) (rowDeleteError : Option JSError) :
    DeleteOutcome :=
  match fetchResult with
  | .error _ => ⟨[], false, false, false⟩
  | .ok e =>
      let files := filesToDelete e
      let storageCalled := decide (0 < files.length)
      let _ := storageError
      ⟨files, storageCalled, true, rowDeleteError.isNone⟩

/-- Embeds `ApiService.processAudio` for a call that reaches the service:
it delegates to `generateTranscription` (which is total, so the `catch`
branch of `processAudio` is unreachable in this embedding) and reports
`processedAudioUrl: null, success: true`. -/
structure ProcessAudioResponse where
  transcription : String
  processedAudioUrl : Option String
  success : Bool
deriving DecidableEq

/-- Embeds `ApiService.processAudio`: the language actually used is
`languageCode || detectUserLanguage()` inside `generateTranscription`. -/
def processAudio (enable : Bool) (apiKey : Option String) (ts : String)
    (blob : Blob) (languageCode : Option String)
    (navLanguage navLanguagesHead : Option String)
    (remote : String → RemoteTranscription) : ProcessAudioResponse :=
  { transcription :=
      generateTranscription enable apiKey ts blob languageCode
        navLanguage navLanguagesHead remote,
    processedAudioUrl := none,
    success := true,
    }

end ApiService

/-! ### AudioLog playback component (`src/components/AudioLog.tsx`) -/

namespace AudioLog

/-- React state of the `AudioLog` component that playback touches:
`currentTime` mirrors the audio element's playback position (the component
writes both together in `handleSeek`), `duration` is the `duration` state
variable. Both are initialised to `0` by `useState(0)`. -/
structure State where
  currentTime : JSNum
  duration : JSNum
deriving DecidableEq

/-- Initial component state: `useState(0)` for both fields. -/
def initialState : State := ⟨JSNum.num 0, JSNum.num 0⟩

/-- Embeds the `loadedmetadata` listener installed in `loadAudio`:
`audioDuration` is `audio.duration` as the media element reports it
(possibly `Infinity` or `NaN`), `entry` the persisted entry being played.
If the reported duration is finite and positive it is stored; otherwise,
if `entry.duration` is truthy and positive, the stored duration is used;
otherwise the state is unchanged. -/
def onLoadedMetadata (entry : EntryRow) (audioDuration : JSNum) (st : State) : State :=
  if audioDuration.isFiniteJS && audioDuration.gtZero then
    { st with duration := audioDuration }
  else
    match entry.duration with
    | some d =>
        if decide (d ≠ 0) && decide (0 < d) then { st with duration := JSNum.num d }
        else st
    | none => st

/-- Embeds the `timeupdate` listener: the element's `currentTime` is copied
into state when finite. -/
def onTimeUpdate (elementTime : JSNum) (st : State) : State :=
  if elementTime.isFiniteJS then { st with currentTime := elementTime } else st

/-- Embeds `displayDuration = duration > 0 ? duration : entry.duration || 0`. -/
def displayDuration (entry : EntryRow) (st : State) : JSNum :=
  if st.duration.gtZero then st.duration
  else
    match entry.duration with
    | some d => if decide (d ≠ 0) then JSNum.num d else JSNum.num 0
    | none => JSNum.num 0

/-- Embeds `handleSeek`: `newTime` is `value[0]` from the slider and
`hasAudioElement` whether `audioElement` is non-null. The seek happens only
when the element exists, the `duration` state is finite and positive, and
`newTime` is finite; it then writes `Math.max(0, Math.min(duration, newTime))`
to both the element's position and the `currentTime` state. -/
def handleSeek (st : State) (hasAudioElement : Bool) (newTime : JSNum) : State :=
  if hasAudioElement && st.duration.isFiniteJS && st.duration.gtZero
      && newTime.isFiniteJS then
    match st.duration, newTime with
    | JSNum.num d, JSNum.num t => { st with currentTime := JSNum.num (max 0 (min d t)) }
    | _, _ => st
  else st

end AudioLog

/-! ### Recorder save flow (`src/components/Recorder.tsx`) -/

namespace Recorder

/-- Embeds `AudioRecordingState` from `src/types/index.ts`. `duration` is
the wall-clock timer value in whole seconds. -/
structure AudioRecordingState where
  isRecording : Bool
  isLoading : Bool
  isPlaying : Bool
  audioBlob : Option Blob
  duration : ℕ
  error : Option String
deriving DecidableEq

/-- Embeds `UserSettings` from `src/utils/settings.ts`. -/
structure UserSettings where
  defaultLanguage : String
  autoDetectLanguage : Bool
  notifications : Bool
  highQualityAudio : Bool
  autoSaveRecordings : Bool
deriving DecidableEq

/-- Embeds `EntryInsert`, the argument of `ApiService.saveEntry` built in
`saveRecording`. -/
structure EntryInsert where
  user_id : String
  title : String
  original_audio_url : Option String
  processed_audio_url : Option String
  transcription : Option String
  duration : Option ℚ
deriving DecidableEq

/-- Embeds the expression choosing `languageForProcessing` in
`saveRecording`: the auto-detected language when auto-detect is on, the
manually selected language otherwise. -/
def languageForProcessing (settings : UserSettings)
    (navLanguage navLanguagesHead : Option String) (selectedLanguage : String) :
    String :=
  if settings.autoDetectLanguage then
    ApiService.detectUserLanguage navLanguage navLanguagesHead
  else selectedLanguage

/-- Environment of one `saveRecording` invocation: the authenticated user's
id (`null` short-circuits the function), the stored user settings, the
browser locale inputs, the outcomes of the storage upload, the remote
transcription call and the database insert, plus the generated
file name, title and timestamp. -/
structure SaveEnv where
  userId : Option String
  settings : UserSettings
  navLanguage : Option String
  navLanguagesHead : Option String
  apiKey : Option String
  transcriptionTs : String
  fileName : String
  title : String
  uploadStorageError : Option JSError
  remote : String → RemoteTranscription
  saveEntryError : Option JSError

/-- Observable outcome of `saveRecording`: the resulting component state
and which pipeline stages were invoked, with the exact row insert passed
to `ApiService.saveEntry` when it was invoked. -/
structure SaveOutcome where
  state : AudioRecordingState
  uploadCalled : Bool
  processCalled : Bool
  processLanguage : Option String
  saveEntryCalled : Bool
  savedInsert : Option EntryInsert

/-- Embeds `saveRecording`. The `try` block's `throw`s all land in the
single `catch`, which clears `isLoading` and stores the error message,
leaving every other field of the previous state (notably `audioBlob` and
`duration`) unchanged. -/
def saveRecording (st : AudioRecordingState) (selectedLanguage : String)
    (env : SaveEnv) : SaveOutcome :=
  match st.audioBlob, env.userId with
  | none, _ => ⟨st, false, false, none, false, none⟩
  | some _, none => ⟨st, false, false, none, false, none⟩
  | some blob, some userId =>
      let st1 := { st with isLoading := true, error := none }
      if blob.size = 0 then
        ⟨{ st1 with
            isLoading := false
            error := some "Recording is empty. Please try recording again." },
          false, false, none, false, none⟩
      else
        match ApiService.uploadAudio env.fileName userId env.uploadStorageError with
        | none =>
            ⟨{ st1 with
                isLoading := false
                error := some "Failed to upload audio file. Please check your internet connection and try again." },
              true, false, none, false, none⟩
        | some originalAudioUrl =>
            let lang := languageForProcessing env.settings env.navLanguage
              env.navLanguagesHead selectedLanguage
            let processResult := ApiService.processAudio ApiService.ENABLE_ELEVENLABS
              env.apiKey env.transcriptionTs blob (some lang)
              env.navLanguage env.navLanguagesHead env.remote
            let entryInsert : EntryInsert :=
              { user_id := userId,
                title := env.title,
                original_audio_url := some originalAudioUrl,
                processed_audio_url := some originalAudioUrl,
                transcription := some processResult.transcription,
                duration := some (st.duration : ℚ) }
            match env.saveEntryError with
            | none =>
                ⟨⟨false, false, false, none, 0, none⟩,
                  true, true, some lang, true, some entryInsert⟩
            | some _ =>
                ⟨{ st1 with
                    isLoading := false
                    error := some "Failed to save recording to database. Please try again." },
                  true, true, some lang, true, some entryInsert⟩

end Recorder

/-! ### Helper lemmas -/

/-- A string whose character list is non-empty is not the empty string. -/
theorem ne_empty_of_data_ne_nil {s : String} (h : s.data ≠ []) : s ≠ "" := by
  intro he
  subst he
  exact h rfl

/-- Appending cannot erase a non-empty left part. -/
theorem append_ne_empty_left (a b : String) (h : a ≠ "") : a ++ b ≠ "" := by
  apply ne_empty_of_data_ne_nil
  rw [String.data_append]
  intro hnil
  rcases List.append_eq_nil.mp hnil with ⟨ha, _⟩
  exact h (String.ext ha)

/-- Every right-hand side in `languageMap` is a supported 3-letter code and
is non-empty. -/
theorem languageMap_values_supported :
    ∀ p ∈ ApiService.languageMap,
      p.2 ∈ ApiService.supportedCodes ∧ p.2 ≠ "" := by decide

/-- C10: For every browser locale input (including absent or unrecognized
ones), `detectUserLanguage` returns one of the codes listed by
`getSupportedLanguages`, of which there are 26; the language hint sent to
the transcription service is therefore always a supported 3-letter code. -/
theorem C10_detect_language_supported (language languagesHead : Option String) :
    ApiService.detectUserLanguage language languagesHead ∈ ApiService.supportedCodes ∧
      ApiService.supportedCodes.length = 26 := by
  refine ⟨?_, by decide⟩
  have hgoal : ApiService.detectUserLanguage language languagesHead
      = jsOrStr (lookupStr ApiService.languageMap
          (jsToLower (jsSubstringTo (ApiService.browserLocale language languagesHead) 2))) "eng" := rfl
  rw [hgoal]
  rcases h : lookupStr ApiService.languageMap
      (jsToLower (jsSubstringTo (ApiService.browserLocale language languagesHead) 2)) with _ | v
  · decide
  · have hv := languageMap_values_supported _ (lookupStr_mem h)
    have ht : jsTruthyStr v = true := by
      simp [jsTruthyStr, hv.2]
    simp only [jsOrStr, ht, if_pos]
    exact hv.1

/-- C3: Language precedence. (1) A truthy explicit caller-supplied code wins
over everything in `languageCode || detectUserLanguage()`. (2) With no
explicit code, the detected language is used. (3) In the Recorder's save
flow, auto-detect enabled means the browser-locale-derived code is used
regardless of the stored default or manual selection, and auto-detect
disabled means the manually selected language is used. (4) The
locale-derived guess maps the lower-cased 2-letter locale pre-segment
through the static `languageMap`; any locale whose 2-letter code is not in
the table yields the fixed default `"eng"`. -/
theorem C3_language_precedence :
    (∀ (c : String) (nl nh : Option String), c ≠ "" →
        ApiService.resolvedLanguage (some c) nl nh = c) ∧
    (∀ (nl nh : Option String),
        ApiService.resolvedLanguage none nl nh = ApiService.detectUserLanguage nl nh) ∧
    (∀ (settings : Recorder.UserSettings) (sel : String) (nl nh : Option String),
        settings.autoDetectLanguage = true →
          Recorder.languageForProcessing settings nl nh sel =
            ApiService.detectUserLanguage nl nh) ∧
    (∀ (settings : Recorder.UserSettings) (sel : String) (nl nh : Option String),
        settings.autoDetectLanguage = false →
          Recorder.languageForProcessing settings nl nh sel = sel) ∧
    (∀ (nl nh : Option String),
        (∃ v, lookupStr ApiService.languageMap
              (jsToLower (jsSubstringTo (ApiService.browserLocale nl nh) 2)) = some v ∧
            ApiService.detectUserLanguage nl nh = v) ∨
        (lookupStr ApiService.languageMap
              (jsToLower (jsSubstringTo (ApiService.browserLocale nl nh) 2)) = none ∧
            ApiService.detectUserLanguage nl nh = "eng")) := by
  refine ⟨?_, ?_, ?_, ?_, ?_⟩
  · intro c nl nh hc
    simp [ApiService.resolvedLanguage, jsTruthyStr, hc]
  · intro nl nh
    rfl
  · intro settings sel nl nh hauto
    simp [Recorder.languageForProcessing, hauto]
  · intro settings sel nl nh hauto
    simp [Recorder.languageForProcessing, hauto]
  · intro nl nh
    have hgoal : ApiService.detectUserLanguage nl nh
        = jsOrStr (lookupStr ApiService.languageMap
            (jsToLower (jsSubstringTo (ApiService.browserLocale nl nh) 2))) "eng" := rfl
    rcases h : lookupStr ApiService.languageMap
        (jsToLower (jsSubstringTo (ApiService.browserLocale nl nh) 2)) with _ | v
    · right
      refine ⟨rfl, ?_⟩
      rw [hgoal, h]
      rfl
    · left
      refine ⟨v, rfl, ?_⟩
      have hv := languageMap_values_supported _ (lookupStr_mem h)
      have ht : jsTruthyStr v = true := by
        simp [jsTruthyStr, hv.2]
      rw [hgoal, h]
      simp only [jsOrStr, ht, if_pos]

/-- Witness for C3 at concrete inputs: an explicit `"por"` beats a Japanese
browser locale; with auto-detect on, a `ja-JP` locale maps to `"jpn"` even
though the stored default and selection are different; with auto-detect
off, the manual selection `"spa"` is used; and an unmapped `xx-YY` locale
falls back to `"eng"`. -/
theorem C3_language_precedence_witness :
    ApiService.resolvedLanguage (some "por") (some "ja-JP") none = "por" ∧
    Recorder.languageForProcessing ⟨"eng", true, true, true, true⟩ (some "ja-JP") none "spa" = "jpn" ∧
    Recorder.languageForProcessing ⟨"eng", false, true, true, true⟩ (some "ja-JP") none "spa" = "spa" ∧
    ApiService.detectUserLanguage (some "xx-YY") none = "eng" := by
  refine ⟨C3_language_precedence.1 "por" (some "ja-JP") none (by decide), ?_, ?_, ?_⟩
  · rw [C3_language_precedence.2.2.1 ⟨"eng", true, true, true, true⟩ "spa" (some "ja-JP") none rfl]
    decide
  · exact C3_language_precedence.2.2.2.1 ⟨"eng", false, true, true, true⟩ "spa" (some "ja-JP") none rfl
  · rcases C3_language_precedence.2.2.2.2 (some "xx-YY") none with ⟨v, hv, _⟩ | ⟨_, he⟩
    · have hn : lookupStr ApiService.languageMap
          (jsToLower (jsSubstringTo (ApiService.browserLocale (some "xx-YY") none) 2)) = none := by
        decide
      rw [hn] at hv
      exact Option.noConfusion hv
    · exact he

/-- A `placeholderTranscript` is never the empty string. -/
theorem placeholderTranscript_ne_empty (ts : String) (blob : Blob) :
    ApiService.placeholderTranscript ts blob ≠ "" := by
  unfold ApiService.placeholderTranscript
  apply append_ne_empty_left
  apply append_ne_empty_left
  apply append_ne_empty_left
  apply append_ne_empty_left
  decide

/-- A `failedTranscript` is never the empty string. -/
theorem failedTranscript_ne_empty (ts : String) (e : JSError) :
    ApiService.failedTranscript ts e ≠ "" := by
  unfold ApiService.failedTranscript
  apply append_ne_empty_left
  apply append_ne_empty_left
  apply append_ne_empty_left
  decide

/-- Reduction of `generateTranscription` once the key is present and
non-empty: only the format check and the remote call remain. -/
theorem generateTranscription_some_eq (k ts : String) (blob : Blob)
    (lc nl nh : Option String) (remote : String → RemoteTranscription)
    (hk : k ≠ "") :
    ApiService.generateTranscription true (some k) ts blob lc nl nh remote =
      if !(jsStartsWith k "sk_") then ApiService.placeholderTranscript ts blob
      else
        match remote (ApiService.resolvedLanguage lc nl nh) with
        | .ok text =>
            if jsTruthyStr text && decide (0 < (jsTrim text).length) then text
            else ApiService.failedTranscript ts
              (JSError.err "No transcription text returned from API")
        | .error e => ApiService.failedTranscript ts e := by
  have h1 : jsOrStr (some k) "" = k := by
    simp [jsOrStr, jsTruthyStr, hk]
  have h2 : jsTruthyStr k = true := by
    simp [jsTruthyStr, hk]
  simp only [ApiService.generateTranscription, h1, h2, Bool.not_true, Bool.false_eq_true,
    if_false]

/-- C2: `generateTranscription` is a total function returning a non-empty
string for every audio blob, optional language code and remote outcome
(never an exception: every `throw` is caught inside the stage). With a
missing credential, or a credential not starting with `"sk_"`, it returns
the placeholder string; with a valid credential but a failing remote call,
it returns a placeholder embedding the error message. -/
theorem C2_generateTranscription_total (apiKey : Option String) (ts : String)
    (blob : Blob) (lc nl nh : Option String)
    (remote : String → RemoteTranscription) :
    (ApiService.generateTranscription ApiService.ENABLE_ELEVENLABS apiKey ts blob
        lc nl nh remote ≠ "") ∧
    (apiKey = none →
      ApiService.generateTranscription ApiService.ENABLE_ELEVENLABS apiKey ts blob
          lc nl nh remote = ApiService.placeholderTranscript ts blob) ∧
    (∀ k, apiKey = some k → jsStartsWith k "sk_" = false →
      ApiService.generateTranscription ApiService.ENABLE_ELEVENLABS apiKey ts blob
          lc nl nh remote = ApiService.placeholderTranscript ts blob) ∧
    (∀ k e, apiKey = some k → jsStartsWith k "sk_" = true →
      remote (ApiService.resolvedLanguage lc nl nh) = Except.error e →
      ApiService.generateTranscription ApiService.ENABLE_ELEVENLABS apiKey ts blob
          lc nl nh remote = ApiService.failedTranscript ts e ∧
      ∃ a, ApiService.generateTranscription ApiService.ENABLE_ELEVENLABS apiKey ts blob
          lc nl nh remote = a ++ e.messageOf) := by
  have hgen : ∀ (g : String),
      ApiService.generateTranscription true apiKey ts blob lc nl nh remote = g →
      ApiService.generateTranscription ApiService.ENABLE_ELEVENLABS apiKey ts blob
        lc nl nh remote = g := fun g h => h
  cases apiKey with
  | none =>
      have he : ApiService.generateTranscription ApiService.ENABLE_ELEVENLABS none ts blob
          lc nl nh remote = ApiService.placeholderTranscript ts blob := rfl
      refine ⟨?_, fun _ => he, ?_, ?_⟩
      · rw [he]
        exact placeholderTranscript_ne_empty ts blob
      · intro k hk
        exact Option.noConfusion hk
      · intro k e hk
        exact Option.noConfusion hk
  | some k =>
      by_cases hk : k = ""
      · subst hk
        have he : ApiService.generateTranscription ApiService.ENABLE_ELEVENLABS (some "") ts blob
            lc nl nh remote = ApiService.placeholderTranscript ts blob := rfl
        refine ⟨?_, ?_, ?_, ?_⟩
        · rw [he]
          exact placeholderTranscript_ne_empty ts blob
        · intro h
          exact Option.noConfusion h
        · intro k' _ _
          exact he
        · intro k' e hk' hsw _
          have hkk : k' = "" := by
            injection hk' with h
            exact h.symm
          subst hkk
          simp [jsStartsWith, beginsList] at hsw
      · have hred := generateTranscription_some_eq k ts blob lc nl nh remote hk
        by_cases hsw : jsStartsWith k "sk_" = true
        · rcases hrem : remote (ApiService.resolvedLanguage lc nl nh) with e | text
          · have he : ApiService.generateTranscription ApiService.ENABLE_ELEVENLABS (some k) ts blob
                lc nl nh remote = ApiService.failedTranscript ts e := by
              apply hgen
              rw [hred, hsw]
              simp only [Bool.not_true, Bool.false_eq_true, if_false]
              rw [hrem]
            refine ⟨?_, ?_, ?_, ?_⟩
            · rw [he]
              exact failedTranscript_ne_empty ts e
            · intro h
              exact Option.noConfusion h
            · intro k' hk' hsw'
              injection hk' with h
              subst h
              rw [hsw] at hsw'
              exact Bool.noConfusion hsw'
            · intro k' e' _ _ hrem'
              injection hrem' with h
              subst h
              refine ⟨he, "Transcription failed on " ++ ts ++ " - please try again later. Error: ", ?_⟩
              rw [he]
              rfl
          · by_cases htext : (jsTruthyStr text && decide (0 < (jsTrim text).length)) = true
            · have he : ApiService.generateTranscription ApiService.ENABLE_ELEVENLABS (some k) ts blob
                  lc nl nh remote = text := by
                apply hgen
                rw [hred, hsw]
                simp only [Bool.not_true, Bool.false_eq_true, if_false]
                rw [hrem]
                simp only [htext, if_pos]
              refine ⟨?_, ?_, ?_, ?_⟩
              · rw [he]
                have : jsTruthyStr text = true := (Bool.and_eq_true _ _ |>.mp htext).1
                exact of_decide_eq_true this
              · intro h
                exact Option.noConfusion h
              · intro k' hk' hsw'
                injection hk' with h
                subst h
                rw [hsw] at hsw'
                exact Bool.noConfusion hsw'
              · intro k' e' _ _ hrem'
                exact Except.noConfusion hrem'
            · have he : ApiService.generateTranscription ApiService.ENABLE_ELEVENLABS (some k) ts blob
                  lc nl nh remote = ApiService.failedTranscript ts
                    (JSError.err "No transcription text returned from API") := by
                apply hgen
                rw [hred, hsw]
                simp only [Bool.not_true, Bool.false_eq_true, if_false]
                rw [hrem]
                exact if_neg htext
              refine ⟨?_, ?_, ?_, ?_⟩
              · rw [he]
                exact failedTranscript_ne_empty ts _
              · intro h
                exact Option.noConfusion h
              · intro k' hk' hsw'
                injection hk' with h
                subst h
                rw [hsw] at hsw'
                exact Bool.noConfusion hsw'
              · intro k' e' _ _ hrem'
                exact Except.noConfusion hrem'
        · have hsw' : jsStartsWith k "sk_" = false := by
            revert hsw
            cases jsStartsWith k "sk_" <;> simp
          have he : ApiService.generateTranscription ApiService.ENABLE_ELEVENLABS (some k) ts blob
              lc nl nh remote = ApiService.placeholderTranscript ts blob := by
            apply hgen
            rw [hred, hsw']
            rfl
          refine ⟨?_, ?_, ?_, ?_⟩
          · rw [he]
            exact placeholderTranscript_ne_empty ts blob
          · intro h
            exact Option.noConfusion h
          · intro k' _ _
            exact he
          · intro k' e' hk' hswt _
            injection hk' with h
            subst h
            rw [hsw'] at hswt
            exact Bool.noConfusion hswt

/-- Witness for C2 at concrete inputs: a missing key yields the placeholder,
a malformed key `"abc"` yields the placeholder, and a valid key whose
remote call throws `Error("boom")` yields the failure placeholder embedding
the message; all three are non-empty. -/
theorem C2_generateTranscription_total_witness :
    ApiService.generateTranscription ApiService.ENABLE_ELEVENLABS none "T" ⟨500⟩
        none none none (fun _ => Except.error (JSError.err "boom")) =
      ApiService.placeholderTranscript "T" ⟨500⟩ ∧
    ApiService.generateTranscription ApiService.ENABLE_ELEVENLABS (some "abc") "T" ⟨500⟩
        none none none (fun _ => Except.error (JSError.err "boom")) =
      ApiService.placeholderTranscript "T" ⟨500⟩ ∧
    ApiService.generateTranscription ApiService.ENABLE_ELEVENLABS (some "sk_abc") "T" ⟨500⟩
        none none none (fun _ => Except.error (JSError.err "boom")) =
      ApiService.failedTranscript "T" (JSError.err "boom") ∧
    ApiService.generateTranscription ApiService.ENABLE_ELEVENLABS (some "sk_abc") "T" ⟨500⟩
        none none none (fun _ => Except.error (JSError.err "boom")) ≠ "" := by
  refine ⟨?_, ?_, ?_, ?_⟩
  · exact (C2_generateTranscription_total none "T" ⟨500⟩ none none none
      (fun _ => Except.error (JSError.err "boom"))).2.1 rfl
  · exact (C2_generateTranscription_total (some "abc") "T" ⟨500⟩ none none none
      (fun _ => Except.error (JSError.err "boom"))).2.2.1 "abc" rfl (by decide)
  · exact ((C2_generateTranscription_total (some "sk_abc") "T" ⟨500⟩ none none none
      (fun _ => Except.error (JSError.err "boom"))).2.2.2 "sk_abc" (JSError.err "boom")
      rfl (by decide) rfl).1
  · exact (C2_generateTranscription_total (some "sk_abc") "T" ⟨500⟩ none none none
      (fun _ => Except.error (JSError.err "boom"))).1

/-- C9 counterexample: with the integration flag as shipped (`true`) and the
credential absent, the transcript produced for a 12345-byte blob is
`"Transcription generated on <ts> - Duration: 12KB"`; it embeds the
timestamp and a byte-size figure but does not contain the word
"placeholder" (in either casing), contradicting the claim that it does. -/
theorem C9_placeholder_counterexample :
    ApiService.generateTranscription ApiService.ENABLE_ELEVENLABS none
        "6/28/2025, 10:30:00 AM" ⟨12345⟩ none none none
        (fun _ => Except.error JSError.other) =
      "Transcription generated on 6/28/2025, 10:30:00 AM - Duration: 12KB" ∧
    strContains
      (ApiService.generateTranscription ApiService.ENABLE_ELEVENLABS none
        "6/28/2025, 10:30:00 AM" ⟨12345⟩ none none none
        (fun _ => Except.error JSError.other)) "placeholder" = false ∧
    strContains
      (ApiService.generateTranscription ApiService.ENABLE_ELEVENLABS none
        "6/28/2025, 10:30:00 AM" ⟨12345⟩ none none none
        (fun _ => Except.error JSError.other)) "Placeholder" = false := by
  refine ⟨rfl, ?_, ?_⟩ <;> decide

/-- C9 as amended: when the transcription credential is absent, the
transcript is exactly `"Transcription generated on " ++ ts ++ " - Duration: "
++ round(size/1000) ++ "KB"` — it embeds the timestamp and a byte-size
figure derived from the blob's size, but not the word "placeholder" (that
word appears only in the disabled-integration branch). -/
theorem C9_missing_key_placeholder (ts : String) (blob : Blob)
    (lc nl nh : Option String) (remote : String → RemoteTranscription) :
    ApiService.generateTranscription ApiService.ENABLE_ELEVENLABS none ts blob
        lc nl nh remote =
      "Transcription generated on " ++ ts ++ " - Duration: " ++
        toString (jsRoundDiv1000 blob.size) ++ "KB" ∧
    (∃ a b : String,
      ApiService.generateTranscription ApiService.ENABLE_ELEVENLABS none ts blob
          lc nl nh remote = a ++ ts ++ b) ∧
    (∃ a b : String,
      ApiService.generateTranscription ApiService.ENABLE_ELEVENLABS none ts blob
          lc nl nh remote = a ++ (toString (jsRoundDiv1000 blob.size) ++ "KB") ++ b) := by
  have he : ApiService.generateTranscription ApiService.ENABLE_ELEVENLABS none ts blob
      lc nl nh remote = ApiService.placeholderTranscript ts blob := rfl
  refine ⟨he, ?_, ?_⟩
  · refine ⟨"Transcription generated on ",
      " - Duration: " ++ toString (jsRoundDiv1000 blob.size) ++ "KB", ?_⟩
    rw [he]
    unfold ApiService.placeholderTranscript
    simp [String.append_assoc]
  · refine ⟨"Transcription generated on " ++ ts ++ " - Duration: ", "", ?_⟩
    rw [he]
    unfold ApiService.placeholderTranscript
    simp [String.append_assoc]

/-- C1: For a persisted entry whose stored `duration` column holds any
number `d`, if the media element reports a duration that is not a finite
positive number on `loadedmetadata`, the displayed duration afterwards is
exactly the entry's stored duration `d`. -/
theorem C1_duration_fallback (e : EntryRow) (d : ℚ) (audioDuration : JSNum)
    (hd : e.duration = some d)
    (had : (audioDuration.isFiniteJS && audioDuration.gtZero) = false) :
    AudioLog.displayDuration e
        (AudioLog.onLoadedMetadata e audioDuration AudioLog.initialState) =
      JSNum.num d := by
  have hstep : AudioLog.onLoadedMetadata e audioDuration AudioLog.initialState =
      (if (decide (d ≠ 0) && decide (0 < d)) = true
        then { AudioLog.initialState with duration := JSNum.num d }
        else AudioLog.initialState) := by
    unfold AudioLog.onLoadedMetadata
    rw [had]
    simp only [Bool.false_eq_true, if_false, hd]
  rw [hstep]
  by_cases hpos : 0 < d
  · simp [AudioLog.displayDuration, AudioLog.initialState, JSNum.gtZero, hd, hpos.ne', hpos]
  · by_cases hz : d = 0
    · subst hz
      simp [AudioLog.displayDuration, AudioLog.initialState, JSNum.gtZero, hd]
    · simp [AudioLog.displayDuration, AudioLog.initialState, JSNum.gtZero, hd, hz, hpos]

/-- Witness for C1: an entry with stored duration 12 whose audio element
reports `Infinity` displays 12 after `loadedmetadata`. -/
theorem C1_duration_fallback_witness :
    AudioLog.displayDuration
        ⟨"e1", "u1", "t", some "u1/a.webm", some "u1/a.webm", none, some 12, "c", "u"⟩
        (AudioLog.onLoadedMetadata
          ⟨"e1", "u1", "t", some "u1/a.webm", some "u1/a.webm", none, some 12, "c", "u"⟩
          JSNum.posInf AudioLog.initialState) = JSNum.num 12 :=
  C1_duration_fallback _ 12 JSNum.posInf rfl (by decide)

/-- C7 counterexample: before the audio element's metadata has arrived the
internal `duration` state is still 0, so for an entry with stored duration
12 the displayed duration is 12, yet a seek to 20 (which exceeds it) is a
no-op: the playback position stays 0 instead of being set to the displayed
duration. -/
theorem C7_seek_counterexample :
    AudioLog.displayDuration
        ⟨"e1", "u1", "t", some "u1/a.webm", some "u1/a.webm", none, some 12, "c", "u"⟩
        AudioLog.initialState = JSNum.num 12 ∧
    (12 : ℚ) < 20 ∧
    AudioLog.handleSeek AudioLog.initialState true (JSNum.num 20) = AudioLog.initialState ∧
    (AudioLog.handleSeek AudioLog.initialState true (JSNum.num 20)).currentTime =
      JSNum.num 0 := by
  refine ⟨by decide, by decide, by decide, by decide⟩

/-- C7 as amended: seeks are clamped against the internal `duration` state,
not the displayed duration. When that state is a finite positive number
`dq` (and then it equals the displayed duration), a seek to `t` sets the
position to `max 0 (min dq t)` — exactly the displayed duration whenever
`t` exceeds it, never beyond it and never below 0. When the displayed
duration is zero the seek is a no-op; and the seek is also a no-op
whenever the internal `duration` state is still 0, even if the displayed
duration falls back to a positive stored value. -/
theorem C7_seek_clamping :
    (∀ (e : EntryRow) (st : AudioLog.State) (dq t : ℚ),
      st.duration = JSNum.num dq → 0 < dq →
        AudioLog.displayDuration e st = st.duration ∧
        (AudioLog.handleSeek st true (JSNum.num t)).currentTime =
          JSNum.num (max 0 (min dq t)) ∧
        (dq < t → (AudioLog.handleSeek st true (JSNum.num t)).currentTime =
          AudioLog.displayDuration e st) ∧
        max 0 (min dq t) ≤ dq ∧ 0 ≤ max 0 (min dq t)) ∧
    (∀ (e : EntryRow) (st : AudioLog.State) (hasAudioElement : Bool) (nt : JSNum),
      AudioLog.displayDuration e st = JSNum.num 0 →
        AudioLog.handleSeek st hasAudioElement nt = st) ∧
    (∀ (st : AudioLog.State) (nt : JSNum),
      st.duration = JSNum.num 0 → AudioLog.handleSeek st true nt = st) := by
  refine ⟨?_, ?_, ?_⟩
  · intro e st dq t hdur hpos
    have hg : st.duration.gtZero = true := by
      rw [hdur]
      simp [JSNum.gtZero, hpos]
    have hdisp : AudioLog.displayDuration e st = st.duration := by
      unfold AudioLog.displayDuration
      rw [hg]
      simp
    have hseek : (AudioLog.handleSeek st true (JSNum.num t)).currentTime =
        JSNum.num (max 0 (min dq t)) := by
      unfold AudioLog.handleSeek
      rw [hdur] at hg ⊢
      simp [JSNum.isFiniteJS, hg]
    refine ⟨hdisp, hseek, ?_, ?_, le_max_left 0 _⟩
    · intro hlt
      rw [hseek, hdisp, hdur]
      have : max 0 (min dq t) = dq := by
        rw [min_eq_left hlt.le]
        exact max_eq_right hpos.le
      rw [this]
    · exact max_le hpos.le (min_le_left _ _)
  · intro e st hasAudioElement nt hdisp
    have hg : st.duration.gtZero = false := by
      by_contra hc
      have hg' : st.duration.gtZero = true := by
        revert hc
        cases st.duration.gtZero <;> simp
      have : AudioLog.displayDuration e st = st.duration := by
        unfold AudioLog.displayDuration
        rw [hg']
        simp
      rw [hdisp] at this
      rw [← this] at hg'
      simp [JSNum.gtZero] at hg'
    unfold AudioLog.handleSeek
    rw [hg]
    simp
  · intro st nt hdur
    have hg : st.duration.gtZero = false := by
      rw [hdur]
      simp [JSNum.gtZero]
    unfold AudioLog.handleSeek
    rw [hg]
    simp

/-- Witness for the amended C7: with internal duration 10, a seek to 25 is
set to exactly the displayed duration 10; with displayed duration 0 the
seek is a no-op; with internal duration 0 the seek is a no-op. -/
theorem C7_seek_clamping_witness :
    AudioLog.displayDuration
        ⟨"e1", "u1", "t", some "u1/a.webm", some "u1/a.webm", none, some 10, "c", "u"⟩
        ⟨JSNum.num 0, JSNum.num 10⟩ = JSNum.num 10 ∧
    (AudioLog.handleSeek ⟨JSNum.num 0, JSNum.num 10⟩ true (JSNum.num 25)).currentTime =
      JSNum.num 10 ∧
    AudioLog.handleSeek ⟨JSNum.num 3, JSNum.num 0⟩ true (JSNum.num 25) =
      ⟨JSNum.num 3, JSNum.num 0⟩ := by
  have h := C7_seek_clamping.1
    ⟨"e1", "u1", "t", some "u1/a.webm", some "u1/a.webm", none, some 10, "c", "u"⟩
    ⟨JSNum.num 0, JSNum.num 10⟩ 10 25 rfl (by norm_num)
  refine ⟨?_, ?_, ?_⟩
  · rw [h.1]
  · rw [h.2.2.1 (by norm_num), h.1]
  · exact C7_seek_clamping.2.2 ⟨JSNum.num 3, JSNum.num 0⟩ (JSNum.num 25) rfl

/-- C4: If the upload stage fails (`uploadAudio` returns `null`), the save
flow creates no entry row: `saveEntry` is never invoked (`processAudio` is
not reached either), the recording's blob and duration state are left
intact for retry, and the state change is confined to clearing the loading
flag and setting the upload error message. -/
theorem C4_upload_failure_no_entry (st : Recorder.AudioRecordingState)
    (selectedLanguage : String) (env : Recorder.SaveEnv) (b : Blob)
    (uid : String) (er : JSError)
    (hblob : st.audioBlob = some b) (huser : env.userId = some uid)
    (hsize : b.size ≠ 0) (hfail : env.uploadStorageError = some er) :
    (Recorder.saveRecording st selectedLanguage env).saveEntryCalled = false ∧
    (Recorder.saveRecording st selectedLanguage env).savedInsert = none ∧
    (Recorder.saveRecording st selectedLanguage env).processCalled = false ∧
    (Recorder.saveRecording st selectedLanguage env).state.audioBlob = st.audioBlob ∧
    (Recorder.saveRecording st selectedLanguage env).state.duration = st.duration ∧
    (Recorder.saveRecording st selectedLanguage env).state.isLoading = false ∧
    (Recorder.saveRecording st selectedLanguage env).state.error =
      some "Failed to upload audio file. Please check your internet connection and try again." := by
  have hupload : ApiService.uploadAudio env.fileName uid env.uploadStorageError = none := by
    rw [hfail]
    rfl
  have hred : Recorder.saveRecording st selectedLanguage env =
      ⟨{ st with
          isLoading := false
          error := some "Failed to upload audio file. Please check your internet connection and try again." },
        true, false, none, false, none⟩ := by
    unfold Recorder.saveRecording
    rw [hblob, huser]
    simp only [hsize, if_neg, hupload]
    simp
  rw [hred]
  simp [hblob]

/-- Witness for C4: a concrete failing upload leaves the blob and duration
in place and creates nothing. -/
theorem C4_upload_failure_no_entry_witness :
    (Recorder.saveRecording
        ⟨false, false, false, some ⟨777⟩, 12, none⟩ "eng"
        ⟨some "u1", ⟨"eng", true, true, true, true⟩, none, none, none, "T",
          "recording_1.webm", "Founder Log", some (JSError.err "network"),
          fun _ => Except.error JSError.other, none⟩).saveEntryCalled = false ∧
    (Recorder.saveRecording
        ⟨false, false, false, some ⟨777⟩, 12, none⟩ "eng"
        ⟨some "u1", ⟨"eng", true, true, true, true⟩, none, none, none, "T",
          "recording_1.webm", "Founder Log", some (JSError.err "network"),
          fun _ => Except.error JSError.other, none⟩).state.audioBlob = some ⟨777⟩ ∧
    (Recorder.saveRecording
        ⟨false, false, false, some ⟨777⟩, 12, none⟩ "eng"
        ⟨some "u1", ⟨"eng", true, true, true, true⟩, none, none, none, "T",
          "recording_1.webm", "Founder Log", some (JSError.err "network"),
          fun _ => Except.error JSError.other, none⟩).state.duration = 12 := by
  have h := C4_upload_failure_no_entry
    ⟨false, false, false, some ⟨777⟩, 12, none⟩ "eng"
    ⟨some "u1", ⟨"eng", true, true, true, true⟩, none, none, none, "T",
      "recording_1.webm", "Founder Log", some (JSError.err "network"),
      fun _ => Except.error JSError.other, none⟩
    ⟨777⟩ "u1" (JSError.err "network") rfl rfl (by decide) rfl
  exact ⟨h.1, by rw [h.2.2.2.1], h.2.2.2.2.1⟩

/-- C5: For an entry whose fetched row carries both storage references,
`deleteEntry` attempts removal of both constructed paths when the two
references are distinct and of a single path when they are equal, and the
returned boolean equals the success of the row deletion alone — it ignores
the storage-removal outcome entirely (which is only warned about). -/
theorem C5_delete_row_is_authority (refs : ApiService.EntryRefs) (o p : String)
    (storageError rowDeleteError : Option JSError)
    (ho : refs.original_audio_url = some o) (hp : refs.processed_audio_url = some p)
    (hot : o ≠ "") (hpt : p ≠ "")
    (hos : ApiService.lastSegment o ≠ "") (hps : ApiService.lastSegment p ≠ "") :
    (p ≠ o →
      (ApiService.deleteEntry (Except.ok refs) storageError rowDeleteError).removedPaths =
        [refs.user_id ++ "/" ++ ApiService.lastSegment o,
         refs.user_id ++ "/" ++ ApiService.lastSegment p]) ∧
    (p = o →
      (ApiService.deleteEntry (Except.ok refs) storageError rowDeleteError).removedPaths =
        [refs.user_id ++ "/" ++ ApiService.lastSegment o]) ∧
    (ApiService.deleteEntry (Except.ok refs) storageError rowDeleteError).success =
      rowDeleteError.isNone ∧
    (ApiService.deleteEntry (Except.ok refs) storageError rowDeleteError).rowDeleteCalled =
      true := by
  have hpaths : (ApiService.deleteEntry (Except.ok refs) storageError rowDeleteError).removedPaths =
      ApiService.filesToDelete refs := rfl
  refine ⟨?_, ?_, rfl, rfl⟩
  · intro hne
    rw [hpaths]
    unfold ApiService.filesToDelete
    rw [ho, hp]
    simp [jsTruthyStr, hot, hpt, hos, hps, hne]
  · intro heq
    subst heq
    rw [hpaths]
    unfold ApiService.filesToDelete
    rw [ho, hp]
    simp [jsTruthyStr, hot, hos]

/-- Witness for C5: distinct references remove two paths, equal references
remove one, a storage error still reports success, and a row-delete error
reports failure. -/
theorem C5_delete_row_is_authority_witness :
    (ApiService.deleteEntry
        (Except.ok ⟨some "u1/a.webm", some "u1/b.webm", "u1"⟩)
        (some (JSError.err "storage down")) none).removedPaths =
      ["u1/a.webm", "u1/b.webm"] ∧
    (ApiService.deleteEntry
        (Except.ok ⟨some "u1/a.webm", some "u1/b.webm", "u1"⟩)
        (some (JSError.err "storage down")) none).success = true ∧
    (ApiService.deleteEntry
        (Except.ok ⟨some "u1/a.webm", some "u1/a.webm", "u1"⟩)
        none (some (JSError.err "row locked"))).removedPaths = ["u1/a.webm"] ∧
    (ApiService.deleteEntry
        (Except.ok ⟨some "u1/a.webm", some "u1/a.webm", "u1"⟩)
        none (some (JSError.err "row locked"))).success = false := by
  have h1 := C5_delete_row_is_authority ⟨some "u1/a.webm", some "u1/b.webm", "u1"⟩
    "u1/a.webm" "u1/b.webm" (some (JSError.err "storage down")) none
    rfl rfl (by decide) (by decide) (by decide) (by decide)
  have h2 := C5_delete_row_is_authority ⟨some "u1/a.webm", some "u1/a.webm", "u1"⟩
    "u1/a.webm" "u1/a.webm" none (some (JSError.err "row locked"))
    rfl rfl (by decide) (by decide) (by decide) (by decide)
  refine ⟨?_, ?_, ?_, ?_⟩
  · rw [h1.1 (by decide)]
    decide
  · rw [h1.2.2.1]
    rfl
  · rw [h2.2.1 rfl]
    decide
  · rw [h2.2.2.1]
    rfl

/-- C6: The transcript-regeneration update applied to the `entries` table
rewrites, on the matching row, only the `transcription` column and the
`updated_at` timestamp; `id`, `user_id`, `title`, both storage references,
`duration`, and `created_at` are unchanged, and non-matching rows are
untouched. -/
theorem C6_update_transcription_frame (db : List EntryRow)
    (entryId transcription now : String) (r' : EntryRow)
    (hmem : r' ∈ ApiService.updateEntryTranscription db entryId transcription now) :
    ∃ r ∈ db,
      r'.id = r.id ∧ r'.user_id = r.user_id ∧ r'.title = r.title ∧
      r'.original_audio_url = r.original_audio_url ∧
      r'.processed_audio_url = r.processed_audio_url ∧
      r'.duration = r.duration ∧ r'.created_at = r.created_at ∧
      (r.id = entryId → r'.transcription = some transcription ∧ r'.updated_at = now) ∧
      (r.id ≠ entryId → r' = r) := by
  unfold ApiService.updateEntryTranscription at hmem
  rcases List.mem_map.mp hmem with ⟨r, hr, heq⟩
  refine ⟨r, hr, ?_⟩
  by_cases hid : r.id = entryId
  · rw [if_pos hid] at heq
    subst heq
    unfold ApiService.applyTranscriptionUpdate
    simp [hid]
  · rw [if_neg hid] at heq
    subst heq
    simp [hid]

/-- Witness for C6: updating a one-row table keeps every column except the
transcript and the update timestamp. -/
theorem C6_update_transcription_frame_witness :
    ∃ r ∈ [(⟨"e1", "u1", "Log", some "u1/a.webm", some "u1/a.webm",
        some "old", some 12, "C", "U"⟩ : EntryRow)],
      (ApiService.applyTranscriptionUpdate
        ⟨"e1", "u1", "Log", some "u1/a.webm", some "u1/a.webm", some "old", some 12, "C", "U"⟩
        "new text" "U2").id = r.id ∧
      (ApiService.applyTranscriptionUpdate
        ⟨"e1", "u1", "Log", some "u1/a.webm", some "u1/a.webm", some "old", some 12, "C", "U"⟩
        "new text" "U2").user_id = r.user_id ∧
      (ApiService.applyTranscriptionUpdate
        ⟨"e1", "u1", "Log", some "u1/a.webm", some "u1/a.webm", some "old", some 12, "C", "U"⟩
        "new text" "U2").title = r.title ∧
      (ApiService.applyTranscriptionUpdate
        ⟨"e1", "u1", "Log", some "u1/a.webm", some "u1/a.webm", some "old", some 12, "C", "U"⟩
        "new text" "U2").original_audio_url = r.original_audio_url ∧
      (ApiService.applyTranscriptionUpdate
        ⟨"e1", "u1", "Log", some "u1/a.webm", some "u1/a.webm", some "old", some 12, "C", "U"⟩
        "new text" "U2").processed_audio_url = r.processed_audio_url ∧
      (ApiService.applyTranscriptionUpdate
        ⟨"e1", "u1", "Log", some "u1/a.webm", some "u1/a.webm", some "old", some 12, "C", "U"⟩
        "new text" "U2").duration = r.duration ∧
      (ApiService.applyTranscriptionUpdate
        ⟨"e1", "u1", "Log", some "u1/a.webm", some "u1/a.webm", some "old", some 12, "C", "U"⟩
        "new text" "U2").created_at = r.created_at ∧
      (r.id = "e1" →
        (ApiService.applyTranscriptionUpdate
          ⟨"e1", "u1", "Log", some "u1/a.webm", some "u1/a.webm", some "old", some 12, "C", "U"⟩
          "new text" "U2").transcription = some "new text" ∧
        (ApiService.applyTranscriptionUpdate
          ⟨"e1", "u1", "Log", some "u1/a.webm", some "u1/a.webm", some "old", some 12, "C", "U"⟩
          "new text" "U2").updated_at = "U2") ∧
      (r.id ≠ "e1" →
        ApiService.applyTranscriptionUpdate
          ⟨"e1", "u1", "Log", some "u1/a.webm", some "u1/a.webm", some "old", some 12, "C", "U"⟩
          "new text" "U2" = r) :=
  C6_update_transcription_frame
    [⟨"e1", "u1", "Log", some "u1/a.webm", some "u1/a.webm", some "old", some 12, "C", "U"⟩]
    "e1" "new text" "U2"
    (ApiService.applyTranscriptionUpdate
      ⟨"e1", "u1", "Log", some "u1/a.webm", some "u1/a.webm", some "old", some 12, "C", "U"⟩
      "new text" "U2")
    (by decide)

/-- C8: Every storage path this system hands to the object-storage layer is
prefixed by the owner's id segment: a successful `uploadAudio` writes to
exactly `userId ++ "/" ++ fileName`, and every path `deleteEntry` removes
is `user_id ++ "/" ++` the last segment of one of the entry's stored
references. -/
theorem C8_paths_owner_scoped :
    (∀ (fileName userId : String) (storageError : Option JSError) (path : String),
      ApiService.uploadAudio fileName userId storageError = some path →
        path = userId ++ "/" ++ fileName) ∧
    (∀ (e : ApiService.EntryRefs) (path : String),
      path ∈ ApiService.filesToDelete e →
        (∃ u, e.original_audio_url = some u ∧
          path = e.user_id ++ "/" ++ ApiService.lastSegment u) ∨
        (∃ q, e.processed_audio_url = some q ∧
          path = e.user_id ++ "/" ++ ApiService.lastSegment q)) := by
  constructor
  · intro fileName userId storageError path h
    cases storageError with
    | some er => simp [ApiService.uploadAudio] at h
    | none =>
        simp only [ApiService.uploadAudio, ApiService.uploadFilePath,
          Option.some.injEq] at h
        exact h.symm
  · intro e path h
    unfold ApiService.filesToDelete at h
    rcases List.mem_append.mp h with h1 | h2
    · left
      rcases ho : e.original_audio_url with _ | u
      · rw [ho] at h1
        simp at h1
      · rw [ho] at h1
        by_cases hc : (jsTruthyStr u && jsTruthyStr (ApiService.lastSegment u)) = true
        · simp only [hc, if_true] at h1
          simp at h1
          exact ⟨u, rfl, h1⟩
        · simp [hc] at h1
    · right
      rcases hq : e.processed_audio_url with _ | q
      · rw [hq] at h2
        simp at h2
      · rw [hq] at h2
        simp at h2
        exact ⟨q, rfl, h2.2⟩

/-- Witness for C8: a concrete successful upload hits `u1/rec.webm`, and
both concrete delete paths carry the `u1/` owner segment. -/
theorem C8_paths_owner_scoped_witness :
    ("u1/rec.webm" = "u1" ++ "/" ++ "rec.webm") ∧
    ((∃ u, (some "folder/a.webm" : Option String) = some u ∧
        "u1/a.webm" = "u1" ++ "/" ++ ApiService.lastSegment u) ∨
      (∃ q, (some "folder/b.webm" : Option String) = some q ∧
        "u1/a.webm" = "u1" ++ "/" ++ ApiService.lastSegment q)) := by
  constructor
  · exact C8_paths_owner_scoped.1 "rec.webm" "u1" none "u1/rec.webm" rfl
  · exact C8_paths_owner_scoped.2 ⟨some "folder/a.webm", some "folder/b.webm", "u1"⟩
      "u1/a.webm" (by decide)
